import Mathlib

/-
  Verification development for the indoortrackingbackend repository.

  The embedding models src/lib/dataFetcher.js shallowly:
  - JS objects become Lean structures; a JS property that may be absent
    becomes an Option field (reading an absent property yields undefined).
  - Code that can throw returns Except (the thrown TypeError message).
  - The side-effecting pipeline fetchDataAndSend is modelled as a pure
    function from the received upstream response body to the ordered list
    of observable effects (the event trace) of one invocation; the awaited
    sequential structure of the JS code is reflected in the order of the
    trace. Wall-clock values (getCurrentDateTime) enter as a parameter.
-/

namespace IndoorTracking

/-- The nearestGatewayData sub-object of a beacon entry value. -/
structure GatewayData where
  device : String
  deriving DecidableEq

/-- The location sub-object of a beacon entry value. -/
structure LocationData where
  latitude : Int
  longitude : Int
  sapLocation : String
  tempCondition_Low : Int
  tempCondition_High : Int
  deriving DecidableEq

/-- The dynamb (dynamic ambient telemetry) sub-object: temperature and uptime. -/
structure DynambData where
  temperature : Int
  uptime : Nat
  deriving DecidableEq

/-- The nested object a beacon entry maps its key to. The sub-objects are
Option because the upstream value may lack them (JS: reading them yields
undefined, and a further property access throws). -/
structure BeaconValue where
  nearestGatewayData : Option GatewayData
  location : Option LocationData
  dynamb : Option DynambData
  deriving DecidableEq

/-- A raw beacon entry: a JS object, i.e. an ordered list of key/value
pairs; Object.keys returns the keys in this order. Normally single-key. -/
structure RawBeaconEntry where
  entries : List (String × BeaconValue)
  deriving DecidableEq

/-- formatUptime from dataFetcher.js: whole-unit decomposition of a
non-negative number of seconds into the German-labelled string. -/
def formatUptime (uptimeInSeconds : Nat) : String :=
  let days := uptimeInSeconds / (60 * 60 * 24)
  let hours := (uptimeInSeconds % (60 * 60 * 24)) / (60 * 60)
  let minutes := (uptimeInSeconds % (60 * 60)) / 60
  let seconds := uptimeInSeconds % 60
  toString days ++ " Tage, " ++ toString hours ++ " Stunden, " ++
    toString minutes ++ " Minuten, " ++ toString seconds ++ " Sekunden"

/-- The flattened record built by extractBeaconData. temperature and uptime
are Option: the JS code sets them only when the dynamb sub-object exists.
gatewayMac is a property the extraction never sets (always none); it is
kept as a field because sendToMqtt reads item.gatewayMac, which in JS
yields undefined on such a record. -/
structure NormalizedRecord where
  beacon : String
  gateway : String
  latitude : Int
  longitude : Int
  sapLocation : String
  tempCondition_Low : Int
  tempCondition_High : Int
  temperature : Option Int
  uptime : Option String
  gatewayMac : Option String
  deriving DecidableEq

/-- extractBeaconData from dataFetcher.js. Takes the first key of the entry
object as the beacon identifier (uppercased) and flattens the nested
value. A missing first key (empty object) or a missing
nearestGatewayData/location sub-object makes the JS code throw a
TypeError, modelled as Except.error. -/
def extractBeaconData (beacon : RawBeaconEntry) : Except String NormalizedRecord :=
  match beacon.entries with
  | [] => Except.error ("TypeError: cannot read properties of undefined")
  | (beaconKey, beaconData) :: _ =>
    match beaconData.nearestGatewayData, beaconData.location with
    | some gw, some loc =>
      Except.ok
        { beacon := beaconKey.toUpper
          gateway := gw.device
          latitude := loc.latitude
          longitude := loc.longitude
          sapLocation := loc.sapLocation
          tempCondition_Low := loc.tempCondition_Low
          tempCondition_High := loc.tempCondition_High
          temperature := beaconData.dynamb.map (fun d => d.temperature)
          uptime := beaconData.dynamb.map (fun d => formatUptime d.uptime)
          gatewayMac := none }
    | _, _ => Except.error ("TypeError: cannot read properties of undefined")

/-- JS expression x || 0 on an optional number: undefined becomes 0, and
the number 0 (falsy) also becomes 0, so this is exactly getD 0. -/
def orZero (t : Option Int) : Int :=
  match t with
  | none => 0
  | some v => v

/-- JS template-literal interpolation of a possibly-undefined string:
an absent value prints as the text undefined. -/
def jsTemplateOptString (v : Option String) : String :=
  match v with
  | none => "undefined"
  | some s => s

/-- The MQTT topic built in sendToMqtt: beacon/ followed by the value of
item.gatewayMac interpolated the JS way. -/
def deviceTopic (item : NormalizedRecord) : String :=
  "beacon/" ++ jsTemplateOptString item.gatewayMac

/-- The JSON message body published per record in sendToMqtt. -/
structure MqttBeaconMessage where
  beacon : String
  gateway : String
  latitude : Int
  longitude : Int
  storageLocation : String
  tempCondition_Low : Int
  tempCondition_High : Int
  currentDateTime : String
  temperature : Int
  deriving DecidableEq

/-- The message body sendToMqtt builds for one record; now is the value of
getCurrentDateTime at publish time. -/
def mqttMessageOf (now : String) (item : NormalizedRecord) : MqttBeaconMessage :=
  { beacon := item.beacon
    gateway := item.gateway
    latitude := item.latitude
    longitude := item.longitude
    storageLocation := item.sapLocation
    tempCondition_Low := item.tempCondition_Low
    tempCondition_High := item.tempCondition_High
    currentDateTime := now
    temperature := orZero item.temperature }

/-- One event of the persistence append payload. -/
structure MongoEvent where
  timestamp : String
  temperature : Int
  deriving DecidableEq

/-- The body POSTed per record in sendToMongoDB. -/
structure MongoPayload where
  beacon : String
  gateway : String
  latitude : Int
  longitude : Int
  tempConditionLow : Int
  tempConditionHigh : Int
  sapLocation : String
  events : List MongoEvent
  deriving DecidableEq

/-- The payload sendToMongoDB builds for one record. -/
def mongoPayloadOf (now : String) (item : NormalizedRecord) : MongoPayload :=
  { beacon := item.beacon
    gateway := item.gateway
    latitude := item.latitude
    longitude := item.longitude
    tempConditionLow := item.tempCondition_Low
    tempConditionHigh := item.tempCondition_High
    sapLocation := item.sapLocation
    events := [{ timestamp := now, temperature := orZero item.temperature }] }

/-- One observable effect of an invocation of fetchDataAndSend. -/
inductive Event where
  | httpGet (url : String)
  | logInfo (msg : String)
  | logError (msg : String)
  | mqttConnect (brokerUrl : String)
  | mqttPublish (topic : String) (payload : MqttBeaconMessage)
  | mqttDisconnect
  | httpPost (url : String) (payload : MongoPayload)
  | registerConnectionHandler
  | emitBeaconData (batch : List NormalizedRecord)
  deriving DecidableEq

/-- The effect trace of sendToMqtt on the success path: connect to the
broker, then on the connect callback publish one message per record in
order, then end the connection; the awaited promise resolves on close. -/
def sendToMqtt (brokerUrl now : String) (extractedData : List NormalizedRecord) : List Event :=
  Event.mqttConnect brokerUrl ::
    (extractedData.map (fun item => Event.mqttPublish (deviceTopic item) (mqttMessageOf now item))
      ++ [Event.mqttDisconnect])

/-- URL of the persistence append endpoint used by sendToMongoDB. -/
def addTempUrl : String := "http://localhost:3002/api/temperature/addTemp"

/-- The effect trace of sendToMongoDB: one awaited POST per record, in
record order, each awaited before the next is issued. -/
def sendToMongoDB (now : String) (extractedData : List NormalizedRecord) : List Event :=
  extractedData.map (fun item => Event.httpPost addTempUrl (mongoPayloadOf now item))

/-- The beacons property of responseData.data: either a JS array of beacon
entries or some non-array value (the tag records which). -/
inductive BeaconsField where
  | arr (beacons : List RawBeaconEntry)
  | notArray (tag : String)
  deriving DecidableEq

/-- The data property of the upstream response body; beacons may be absent. -/
structure ResponseDataField where
  beacons : Option BeaconsField
  deriving DecidableEq

/-- The upstream response body; the data property may be absent (falsy). -/
structure UpstreamResponse where
  data : Option ResponseDataField
  deriving DecidableEq

/-- URL of the positioning source queried by fetchDataAndSend. -/
def positionUrl : String := "http://localhost:3002/api/position/getPosition"

/-- originalBeacons.map(extractBeaconData) with JS throw semantics: the
map aborts at the first throwing element and the exception propagates. -/
def mapExtract : List RawBeaconEntry → Except String (List NormalizedRecord)
  | [] => Except.ok []
  | b :: rest =>
    match extractBeaconData b with
    | Except.error e => Except.error e
    | Except.ok r =>
      match mapExtract rest with
      | Except.error e => Except.error e
      | Except.ok rs => Except.ok (r :: rs)

/-- The effect trace of one invocation of fetchDataAndSend given the
received response body. The try/catch makes the JS function total: a
malformed body logs and returns, a throw during extraction is caught and
logged at the top level. On success the three fan-out steps contribute
their traces in sequence, and the final step registers a connection
handler on the socket object (it does not emit during the invocation). -/
def fetchDataAndSend (responseData : UpstreamResponse) (brokerUrl now : String) : List Event :=
  Event.httpGet positionUrl ::
    (match responseData.data with
     | none => [Event.logError ("No beacons found in the response.")]
     | some d =>
       match d.beacons with
       | some (BeaconsField.arr originalBeacons) =>
         (match mapExtract originalBeacons with
          | Except.error e =>
            [Event.logError ("Error during fetching or sending data: " ++ e)]
          | Except.ok extractedData =>
            Event.logInfo ("extractedData") ::
              (sendToMqtt brokerUrl now extractedData
                ++ sendToMongoDB now extractedData
                ++ [Event.registerConnectionHandler]))
       | _ => [Event.logError ("No beacons found in the response.")])

/-- The body of the handler registered on the socket object: when a socket
connects later, the batch of this past invocation is emitted to all
sockets. -/
def connectionHandlerEmit (extractedData : List NormalizedRecord) : Event :=
  Event.emitBeaconData extractedData

/-- A response body whose data.beacons is the given array. -/
def mkResp (beacons : List RawBeaconEntry) : UpstreamResponse :=
  { data := some { beacons := some (BeaconsField.arr beacons) } }

/-- An entry is well-formed in the sense of the upstream contract: a
single-key mapping whose value has the nearestGatewayData and location
sub-objects. -/
def wellFormedEntry (b : RawBeaconEntry) : Bool :=
  match b.entries with
  | [(_, v)] => v.nearestGatewayData.isSome && v.location.isSome
  | _ => false

/-- An entry on which extraction throws: no key at all, or the first value
lacks the nearestGatewayData or location sub-object. -/
def firstEntryBroken (b : RawBeaconEntry) : Bool :=
  match b.entries with
  | [] => true
  | (_, v) :: _ => v.nearestGatewayData.isNone || v.location.isNone

/-- A response body the validation step rejects: data absent, or beacons
absent, or beacons not an array. -/
def malformedResponse (r : UpstreamResponse) : Bool :=
  match r.data with
  | none => true
  | some d =>
    match d.beacons with
    | some (BeaconsField.arr _) => false
    | _ => true

/-- Event classifiers used to state ordering properties of a trace. -/
def isMqttEvent : Event → Bool
  | Event.mqttConnect _ => true
  | Event.mqttPublish _ _ => true
  | Event.mqttDisconnect => true
  | _ => false

def isPublishEvent : Event → Bool
  | Event.mqttPublish _ _ => true
  | _ => false

def isPersistEvent : Event → Bool
  | Event.httpPost _ _ => true
  | _ => false

def isSubscriberEvent : Event → Bool
  | Event.registerConnectionHandler => true
  | Event.emitBeaconData _ => true
  | _ => false

def isEmitEvent : Event → Bool
  | Event.emitBeaconData _ => true
  | _ => false

/-- Ordering constraint between an earlier trace event e1 and a strictly
later trace event e2: once a persistence event has happened no MQTT event
follows, and once the subscriber step has happened neither an MQTT nor a
persistence event follows. A trace that is Pairwise stepOrder therefore
runs its MQTT phase, persistence phase and subscriber phase strictly in
that order. -/
def stepOrder (e1 e2 : Event) : Prop :=
  (isPersistEvent e1 = true → isMqttEvent e2 = false) ∧
  (isSubscriberEvent e1 = true → isMqttEvent e2 = false ∧ isPersistEvent e2 = false)

/-- Concrete sample values used by witnesses and counterexamples. -/
def sampleGw : GatewayData := { device := "GW-AA-BB" }

def sampleLoc : LocationData :=
  { latitude := 10, longitude := 20, sapLocation := "WH-01",
    tempCondition_Low := 2, tempCondition_High := 8 }

def sampleVal : BeaconValue :=
  { nearestGatewayData := some sampleGw, location := some sampleLoc, dynamb := none }

def sampleEntry : RawBeaconEntry := { entries := [("b1", sampleVal)] }

def sampleNow : String := "2024-05-01 12:00:00"

/-- The record extractBeaconData produces from sampleEntry. -/
def sampleRecord : NormalizedRecord :=
  { beacon := "B1", gateway := "GW-AA-BB", latitude := 10, longitude := 20,
    sapLocation := "WH-01", tempCondition_Low := 2, tempCondition_High := 8,
    temperature := none, uptime := none, gatewayMac := none }

/-- C5: for every non-negative integer number of seconds, formatUptime
returns the German-labelled decomposition with days = floor(s/86400),
hours = floor((s mod 86400)/3600), minutes = floor((s mod 3600)/60) and
seconds = s mod 60; in particular 90061 seconds format as one of each
unit. -/
theorem c5_formatUptime_decomposition :
    (∀ s : Nat, formatUptime s =
      toString (s / 86400) ++ " Tage, " ++ toString (s % 86400 / 3600) ++ " Stunden, " ++
        toString (s % 3600 / 60) ++ " Minuten, " ++ toString (s % 60) ++ " Sekunden") ∧
    formatUptime 90061 = "1 Tage, 1 Stunden, 1 Minuten, 1 Sekunden" :=
  ⟨fun _ => rfl, by decide⟩

/-- C7: a beacon entry whose nested value has no dynamb sub-object yields a
NormalizedRecord with no temperature and no uptime string, while the
beacon identifier (uppercased key), gateway device, coordinates, location
label and both temperature-condition thresholds are still populated. -/
theorem c7_no_dynamb_record (k : String) (v : BeaconValue) (gw : GatewayData)
    (loc : LocationData) (hg : v.nearestGatewayData = some gw)
    (hl : v.location = some loc) (hd : v.dynamb = none) :
    extractBeaconData { entries := [(k, v)] } =
      Except.ok
        { beacon := k.toUpper, gateway := gw.device, latitude := loc.latitude,
          longitude := loc.longitude, sapLocation := loc.sapLocation,
          tempCondition_Low := loc.tempCondition_Low,
          tempCondition_High := loc.tempCondition_High,
          temperature := none, uptime := none, gatewayMac := none } := by
  simp [extractBeaconData, hg, hl, hd]

/-- Witness for C7 at the concrete sample entry. -/
theorem c7_no_dynamb_record_witness :
    (sampleVal.nearestGatewayData = some sampleGw ∧ sampleVal.location = some sampleLoc ∧
      sampleVal.dynamb = none) ∧
    extractBeaconData { entries := [("b1", sampleVal)] } =
      Except.ok
        { beacon := String.toUpper "b1", gateway := sampleGw.device,
          latitude := sampleLoc.latitude, longitude := sampleLoc.longitude,
          sapLocation := sampleLoc.sapLocation,
          tempCondition_Low := sampleLoc.tempCondition_Low,
          tempCondition_High := sampleLoc.tempCondition_High,
          temperature := none, uptime := none, gatewayMac := none } :=
  ⟨⟨rfl, rfl, rfl⟩, c7_no_dynamb_record "b1" sampleVal sampleGw sampleLoc rfl rfl rfl⟩

/-- C8: for a normalized record with no reported temperature the
persistence append payload carries temperature zero (the field is always
present), and every append payload has exactly a single-element event
list holding the formatted timestamp and that temperature. -/
theorem c8_persist_zero_default (now : String) (item : NormalizedRecord)
    (h : item.temperature = none) :
    (mongoPayloadOf now item).events = [{ timestamp := now, temperature := 0 }] ∧
    ∀ other : NormalizedRecord, ((mongoPayloadOf now other).events) =
      [{ timestamp := now, temperature := orZero other.temperature }] := by
  constructor
  · simp [mongoPayloadOf, orZero, h]
  · intro other
    rfl

/-- Witness for C8 at the concrete sample record. -/
theorem c8_persist_zero_default_witness :
    sampleRecord.temperature = none ∧
    ((mongoPayloadOf sampleNow sampleRecord).events =
        [{ timestamp := sampleNow, temperature := 0 }] ∧
      ∀ other : NormalizedRecord, ((mongoPayloadOf sampleNow other).events) =
        [{ timestamp := sampleNow, temperature := orZero other.temperature }]) :=
  ⟨rfl, c8_persist_zero_default sampleNow sampleRecord rfl⟩

/-- C2 (code behavior at the failing input): extraction populates the
gateway field, never the gatewayMac property, yet sendToMqtt builds the
topic from item.gatewayMac, so the publish topic is beacon/undefined and
differs from beacon/ followed by the extracted gateway identifier. -/
theorem c2_topic_field_mismatch :
    ∃ r, extractBeaconData sampleEntry = Except.ok r ∧
      r.gateway = "GW-AA-BB" ∧ r.gatewayMac = none ∧
      deviceTopic r = "beacon/undefined" ∧
      deviceTopic r ≠ "beacon/" ++ r.gateway := by
  refine ⟨_, rfl, rfl, rfl, rfl, ?_⟩
  decide

/-- C3 (code behavior at the failing input): during an invocation that
produced one record, the trace contains no emit of the batch at all; the
code merely registers a connection handler, so nothing is broadcast to
subscribers already connected when the invocation runs. -/
theorem c3_no_broadcast_during_invocation :
    (fetchDataAndSend (mkResp [sampleEntry]) "mqtt://broker" sampleNow).filter isEmitEvent
        = [] ∧
    Event.registerConnectionHandler ∈
      fetchDataAndSend (mkResp [sampleEntry]) "mqtt://broker" sampleNow ∧
    connectionHandlerEmit [sampleRecord] = Event.emitBeaconData [sampleRecord] := by
  refine ⟨by decide, by decide, rfl⟩

/-- Counterexample to C1 as stated: for a well-formed response with zero
beacon entries the invocation still opens an MQTT connection. -/
theorem c1_zero_beacons_counterexample :
    Event.mqttConnect "mqtt://broker" ∈
      fetchDataAndSend (mkResp []) "mqtt://broker" sampleNow := by
  decide

/-- C1 (amended): with zero beacon entries the MQTT connection is still
opened (and closed) with zero publishes, no persistence POST is made, and
the subscriber step still runs: the fan-out runs on every invocation with
a well-formed response, regardless of record count. -/
theorem c1_zero_beacons_fanout (brokerUrl now : String) :
    Event.mqttConnect brokerUrl ∈ fetchDataAndSend (mkResp []) brokerUrl now ∧
    (fetchDataAndSend (mkResp []) brokerUrl now).all (fun e => !isPublishEvent e) = true ∧
    (fetchDataAndSend (mkResp []) brokerUrl now).all (fun e => !isPersistEvent e) = true ∧
    Event.registerConnectionHandler ∈ fetchDataAndSend (mkResp []) brokerUrl now := by
  refine ⟨?_, ?_, ?_, ?_⟩ <;>
    simp [fetchDataAndSend, mkResp, mapExtract, sendToMqtt, sendToMongoDB,
      isPublishEvent, isPersistEvent]

/-- Witness for C1 (amended) at concrete configuration strings. -/
theorem c1_zero_beacons_fanout_witness :
    Event.mqttConnect "mqtt://x" ∈ fetchDataAndSend (mkResp []) "mqtt://x" sampleNow ∧
    (fetchDataAndSend (mkResp []) "mqtt://x" sampleNow).all
        (fun e => !isPublishEvent e) = true ∧
    (fetchDataAndSend (mkResp []) "mqtt://x" sampleNow).all
        (fun e => !isPersistEvent e) = true ∧
    Event.registerConnectionHandler ∈ fetchDataAndSend (mkResp []) "mqtt://x" sampleNow :=
  c1_zero_beacons_fanout "mqtt://x" sampleNow

/-- C6: a response body with the data property absent, the beacons
property absent, or beacons not an array makes the invocation log an
error and produce zero records: the trace is exactly the GET plus the log
line, with no MQTT and no persistence event, and the function returns
normally (no unhandled exception). -/
theorem c6_malformed_response_safe (r : UpstreamResponse) (brokerUrl now : String)
    (h : malformedResponse r = true) :
    fetchDataAndSend r brokerUrl now =
      [Event.httpGet positionUrl, Event.logError ("No beacons found in the response.")] ∧
    (fetchDataAndSend r brokerUrl now).all
      (fun e => !isMqttEvent e && !isPersistEvent e) = true := by
  rcases r with ⟨data⟩
  cases data with
  | none => exact ⟨rfl, rfl⟩
  | some d =>
    rcases d with ⟨beacons⟩
    cases beacons with
    | none => exact ⟨rfl, rfl⟩
    | some bf =>
      cases bf with
      | arr l => simp [malformedResponse] at h
      | notArray tag => exact ⟨rfl, rfl⟩

/-- Witness for C6 at a concrete malformed response (data absent). -/
theorem c6_malformed_response_safe_witness :
    malformedResponse { data := none } = true ∧
    (fetchDataAndSend { data := none } "mqtt://x" sampleNow =
        [Event.httpGet positionUrl,
         Event.logError ("No beacons found in the response.")] ∧
      (fetchDataAndSend { data := none } "mqtt://x" sampleNow).all
        (fun e => !isMqttEvent e && !isPersistEvent e) = true) :=
  ⟨rfl, c6_malformed_response_safe { data := none } "mqtt://x" sampleNow rfl⟩

/-- Extraction on a single-key entry whose sub-objects are present. -/
lemma extract_wf_eq {k : String} {v : BeaconValue} {gw : GatewayData} {loc : LocationData}
    (hg : v.nearestGatewayData = some gw) (hl : v.location = some loc) :
    extractBeaconData { entries := [(k, v)] } =
      Except.ok
        { beacon := k.toUpper, gateway := gw.device, latitude := loc.latitude,
          longitude := loc.longitude, sapLocation := loc.sapLocation,
          tempCondition_Low := loc.tempCondition_Low,
          tempCondition_High := loc.tempCondition_High,
          temperature := v.dynamb.map (fun d => d.temperature),
          uptime := v.dynamb.map (fun d => formatUptime d.uptime),
          gatewayMac := none } := by
  simp [extractBeaconData, hg, hl]

/-- A well-formed entry extracts successfully and the record's beacon field
is the entry's single key uppercased. -/
lemma extract_ok_of_wellFormed {b : RawBeaconEntry} (hb : wellFormedEntry b = true) :
    ∃ r, extractBeaconData b = Except.ok r ∧
      ∀ k v, b.entries = [(k, v)] → r.beacon = k.toUpper := by
  rcases b with ⟨entries⟩
  rcases entries with - | ⟨⟨k, v⟩, rest⟩
  · simp [wellFormedEntry] at hb
  rcases rest with - | ⟨e2, rest2⟩
  · simp only [wellFormedEntry, Bool.and_eq_true, Option.isSome_iff_exists] at hb
    obtain ⟨⟨gw, hgw⟩, loc, hloc⟩ := hb
    refine ⟨_, extract_wf_eq hgw hloc, ?_⟩
    intro k2 v2 hkv
    simp only [List.cons.injEq, Prod.mk.injEq, and_true] at hkv
    obtain ⟨hk, -⟩ := hkv
    simp [hk]
  · simp [wellFormedEntry] at hb

/-- When every entry is well-formed, mapping extraction over the list
succeeds and produces one record per entry, the beacon identifier of each
being the uppercased single key of its source entry. -/
lemma mapExtract_ok_of_wf (beacons : List RawBeaconEntry)
    (h : ∀ b ∈ beacons, wellFormedEntry b = true) :
    ∃ records, mapExtract beacons = Except.ok records ∧
      records.length = beacons.length ∧
      List.Forall₂ (fun b r => ∀ k v, b.entries = [(k, v)] → r.beacon = k.toUpper)
        beacons records := by
  induction beacons with
  | nil => exact ⟨[], rfl, rfl, List.Forall₂.nil⟩
  | cons b rest ih =>
    obtain ⟨r, hr, hkey⟩ := extract_ok_of_wellFormed (h b (List.mem_cons_self b rest))
    obtain ⟨records, hrec, hlen, hall⟩ := ih fun x hx => h x (List.mem_cons_of_mem b hx)
    refine ⟨r :: records, ?_, ?_, List.Forall₂.cons hkey hall⟩
    · simp [mapExtract, hr, hrec]
    · simp [hlen]

/-- C4: a well-formed upstream response with N beacon entries yields
exactly N normalized records, and each record's beacon identifier equals
the single key of its source entry converted to uppercase. -/
theorem c4_collector_count_and_ids (beacons : List RawBeaconEntry)
    (h : ∀ b ∈ beacons, wellFormedEntry b = true) :
    ∃ records, mapExtract beacons = Except.ok records ∧
      records.length = beacons.length ∧
      List.Forall₂ (fun b r => ∀ k v, b.entries = [(k, v)] → r.beacon = k.toUpper)
        beacons records :=
  mapExtract_ok_of_wf beacons h

/-- Witness for C4 at a concrete one-entry response. -/
theorem c4_collector_count_and_ids_witness :
    (∀ b ∈ [sampleEntry], wellFormedEntry b = true) ∧
    (∃ records, mapExtract [sampleEntry] = Except.ok records ∧
      records.length = ([sampleEntry] : List RawBeaconEntry).length ∧
      List.Forall₂ (fun b r => ∀ k v, b.entries = [(k, v)] → r.beacon = k.toUpper)
        [sampleEntry] records) :=
  ⟨by decide, c4_collector_count_and_ids [sampleEntry] (by decide)⟩

/-- An entry whose first value lacks a required sub-object, or which has no
key at all, makes extraction throw. -/
lemma extract_error_of_broken {b : RawBeaconEntry} (hb : firstEntryBroken b = true) :
    ∃ m, extractBeaconData b = Except.error m := by
  rcases b with ⟨entries⟩
  rcases entries with - | ⟨⟨k, v⟩, rest⟩
  · exact ⟨_, rfl⟩
  · simp only [firstEntryBroken, Bool.or_eq_true, Option.isNone_iff_eq_none] at hb
    rcases hb with hg | hl
    · exact ⟨"TypeError: cannot read properties of undefined",
        by simp [extractBeaconData, hg]⟩
    · cases hg : v.nearestGatewayData with
      | none => exact ⟨"TypeError: cannot read properties of undefined",
          by simp [extractBeaconData, hg]⟩
      | some gw => exact ⟨"TypeError: cannot read properties of undefined",
          by simp [extractBeaconData, hg, hl]⟩

/-- If extraction throws on some member of the list, the JS map aborts with
an exception. -/
lemma mapExtract_error_of_mem {b : RawBeaconEntry} {l : List RawBeaconEntry}
    (hmem : b ∈ l) (m : String) (hb : extractBeaconData b = Except.error m) :
    ∃ m2, mapExtract l = Except.error m2 := by
  induction l with
  | nil => simp at hmem
  | cons a rest ih =>
    rcases List.mem_cons.mp hmem with rfl | h
    · exact ⟨m, by simp [mapExtract, hb]⟩
    · cases ha : extractBeaconData a with
      | error e => exact ⟨e, by simp [mapExtract, ha]⟩
      | ok r =>
        obtain ⟨m2, hm2⟩ := ih h
        exact ⟨m2, by simp [mapExtract, ha, hm2]⟩

/-- C10: extraction reads only the first key of an entry object (further
keys are ignored); an entry with no key, or whose first value lacks the
nearestGatewayData or location sub-object, makes extraction throw, and
the top-level handler then abandons the whole pass: the invocation trace
is just the GET and the caught-error log line, so no record reaches any
sink. -/
theorem c10_first_key_only_and_abort (k : String) (v : BeaconValue)
    (rest : List (String × BeaconValue)) (bad : RawBeaconEntry)
    (hbad : firstEntryBroken bad = true) (beacons : List RawBeaconEntry)
    (hmem : bad ∈ beacons) (brokerUrl now : String) :
    extractBeaconData { entries := (k, v) :: rest } =
      extractBeaconData { entries := [(k, v)] } ∧
    (∃ m, extractBeaconData bad = Except.error m) ∧
    (∃ m2, fetchDataAndSend (mkResp beacons) brokerUrl now =
      [Event.httpGet positionUrl,
       Event.logError ("Error during fetching or sending data: " ++ m2)]) := by
  refine ⟨rfl, extract_error_of_broken hbad, ?_⟩
  obtain ⟨m, hm⟩ := extract_error_of_broken hbad
  obtain ⟨m2, hm2⟩ := mapExtract_error_of_mem hmem m hm
  exact ⟨m2, by simp [fetchDataAndSend, mkResp, hm2]⟩

/-- Witness for C10: a two-key entry and a keyless entry in a concrete
response. -/
theorem c10_first_key_only_and_abort_witness :
    firstEntryBroken { entries := [] } = true ∧
    ({ entries := [] } : RawBeaconEntry) ∈ [({ entries := [] } : RawBeaconEntry)] ∧
    (extractBeaconData { entries := [("b1", sampleVal), ("b2", sampleVal)] } =
        extractBeaconData { entries := [("b1", sampleVal)] } ∧
      (∃ m, extractBeaconData { entries := [] } = Except.error m) ∧
      (∃ m2, fetchDataAndSend (mkResp [{ entries := [] }]) "mqtt://x" sampleNow =
        [Event.httpGet positionUrl,
         Event.logError ("Error during fetching or sending data: " ++ m2)])) :=
  ⟨rfl, by decide,
    c10_first_key_only_and_abort "b1" sampleVal [("b2", sampleVal)] { entries := [] } rfl
      [{ entries := [] }] (by decide) "mqtt://x" sampleNow⟩

/-- stepOrder holds from any event that is neither a persistence nor a
subscriber event. -/
lemma stepOrder_of_neutral {e1 : Event} (h1 : isPersistEvent e1 = false)
    (h2 : isSubscriberEvent e1 = false) (e2 : Event) : stepOrder e1 e2 := by
  constructor
  · intro hc
    rw [h1] at hc
    exact absurd hc (by decide)
  · intro hc
    rw [h2] at hc
    exact absurd hc (by decide)

/-- stepOrder holds from a non-subscriber event toward a non-MQTT event. -/
lemma stepOrder_toward_nonMqtt {e1 e2 : Event} (h2s : isSubscriberEvent e1 = false)
    (hm : isMqttEvent e2 = false) : stepOrder e1 e2 := by
  constructor
  · intro _
    exact hm
  · intro hc
    rw [h2s] at hc
    exact absurd hc (by decide)

lemma mqtt_event_classes {e : Event} (h : isMqttEvent e = true) :
    isPersistEvent e = false ∧ isSubscriberEvent e = false := by
  cases e <;> simp_all [isMqttEvent, isPersistEvent, isSubscriberEvent]

lemma persist_event_classes {e : Event} (h : isPersistEvent e = true) :
    isMqttEvent e = false ∧ isSubscriberEvent e = false := by
  cases e <;> simp_all [isMqttEvent, isPersistEvent, isSubscriberEvent]

lemma mem_sendToMqtt_isMqtt {brokerUrl now : String} {records : List NormalizedRecord}
    {e : Event} (he : e ∈ sendToMqtt brokerUrl now records) : isMqttEvent e = true := by
  simp only [sendToMqtt, List.mem_cons, List.mem_append, List.mem_map,
    List.mem_singleton, List.not_mem_nil, or_false] at he
  rcases he with rfl | ⟨⟨x, hx, rfl⟩ | rfl⟩ <;> rfl

lemma mem_sendToMongoDB_isPersist {now : String} {records : List NormalizedRecord}
    {e : Event} (he : e ∈ sendToMongoDB now records) : isPersistEvent e = true := by
  simp only [sendToMongoDB, List.mem_map] at he
  obtain ⟨x, hx, rfl⟩ := he
  rfl

/-- A list of neutral events (neither persistence nor subscriber) is
pairwise stepOrder. -/
lemma pairwise_stepOrder_of_neutral {l : List Event}
    (h : ∀ e ∈ l, isPersistEvent e = false ∧ isSubscriberEvent e = false) :
    l.Pairwise stepOrder := by
  induction l with
  | nil => exact List.Pairwise.nil
  | cons a t ih =>
    refine List.Pairwise.cons ?_ (ih fun e he => h e (List.mem_cons_of_mem a he))
    intro b _
    obtain ⟨h1, h2⟩ := h a (List.mem_cons_self a t)
    exact stepOrder_of_neutral h1 h2 b

/-- A list of non-subscriber, non-MQTT events is pairwise stepOrder. -/
lemma pairwise_stepOrder_of_phase {l : List Event}
    (h : ∀ e ∈ l, isSubscriberEvent e = false ∧ isMqttEvent e = false) :
    l.Pairwise stepOrder := by
  induction l with
  | nil => exact List.Pairwise.nil
  | cons a t ih =>
    refine List.Pairwise.cons ?_ (ih fun e he => h e (List.mem_cons_of_mem a he))
    intro b hb
    exact stepOrder_toward_nonMqtt (h a (List.mem_cons_self a t)).1
      (h b (List.mem_cons_of_mem a hb)).2

lemma filter_persist_eq_nil_of_phase {l : List Event}
    (h : ∀ e ∈ l, isPersistEvent e = false) : l.filter isPersistEvent = [] :=
  List.filter_eq_nil_iff.mpr fun a ha => by simp [h a ha]

/-- Shape of the invocation trace on the success path. -/
lemma fetch_success_trace {beacons : List RawBeaconEntry}
    {records : List NormalizedRecord} (brokerUrl now : String)
    (hrec : mapExtract beacons = Except.ok records) :
    fetchDataAndSend (mkResp beacons) brokerUrl now =
      Event.httpGet positionUrl :: Event.logInfo ("extractedData") ::
        (sendToMqtt brokerUrl now records ++
          (sendToMongoDB now records ++ [Event.registerConnectionHandler])) := by
  simp [fetchDataAndSend, mkResp, hrec]

/-- C9: within one invocation the three fan-out steps run strictly
sequentially: the trace is pairwise ordered so that no MQTT event follows
a persistence event and no MQTT or persistence event follows the
subscriber step (MQTT connect, publishes and disconnect all precede the
first POST, and every POST precedes the subscriber step), and the
persistence POSTs occur exactly in record order, one awaited append per
record. -/
theorem c9_fanout_sequential (beacons : List RawBeaconEntry) (brokerUrl now : String)
    (h : ∀ b ∈ beacons, wellFormedEntry b = true) :
    ∃ records, mapExtract beacons = Except.ok records ∧
      (fetchDataAndSend (mkResp beacons) brokerUrl now).Pairwise stepOrder ∧
      (fetchDataAndSend (mkResp beacons) brokerUrl now).filter isPersistEvent =
        sendToMongoDB now records := by
  obtain ⟨records, hrec, -, -⟩ := mapExtract_ok_of_wf beacons h
  have hmqN : ∀ e ∈ sendToMqtt brokerUrl now records,
      isPersistEvent e = false ∧ isSubscriberEvent e = false :=
    fun e he => mqtt_event_classes (mem_sendToMqtt_isMqtt he)
  have hpoP : ∀ e ∈ sendToMongoDB now records,
      isSubscriberEvent e = false ∧ isMqttEvent e = false :=
    fun e he =>
      ⟨(persist_event_classes (mem_sendToMongoDB_isPersist he)).2,
       (persist_event_classes (mem_sendToMongoDB_isPersist he)).1⟩
  refine ⟨records, hrec, ?_, ?_⟩
  · rw [fetch_success_trace brokerUrl now hrec]
    refine List.Pairwise.cons ?_ ?_
    · intro b _
      exact @stepOrder_of_neutral (Event.httpGet positionUrl) rfl rfl b
    refine List.Pairwise.cons ?_ ?_
    · intro b _
      exact @stepOrder_of_neutral (Event.logInfo ("extractedData")) rfl rfl b
    rw [List.pairwise_append]
    refine ⟨pairwise_stepOrder_of_neutral hmqN, ?_, ?_⟩
    · rw [List.pairwise_append]
      refine ⟨pairwise_stepOrder_of_phase hpoP, ?_, ?_⟩
      · exact List.Pairwise.cons (fun b hb => absurd hb (List.not_mem_nil b))
          List.Pairwise.nil
      · intro a ha b hb
        rw [List.mem_singleton] at hb
        subst hb
        exact stepOrder_toward_nonMqtt (hpoP a ha).1 rfl
    · intro a ha b _
      exact stepOrder_of_neutral (hmqN a ha).1 (hmqN a ha).2 b
  · rw [fetch_success_trace brokerUrl now hrec]
    have hmq : (sendToMqtt brokerUrl now records).filter isPersistEvent = [] :=
      filter_persist_eq_nil_of_phase fun e he => (hmqN e he).1
    have hpo : (sendToMongoDB now records).filter isPersistEvent =
        sendToMongoDB now records :=
      List.filter_eq_self.mpr fun a ha => mem_sendToMongoDB_isPersist ha
    rw [List.filter_cons_of_neg (by decide), List.filter_cons_of_neg (by decide),
      List.filter_append, List.filter_append, hmq, hpo]
    simp [isPersistEvent]

/-- Witness for C9 at a concrete one-entry response. -/
theorem c9_fanout_sequential_witness :
    (∀ b ∈ [sampleEntry], wellFormedEntry b = true) ∧
    (∃ records, mapExtract [sampleEntry] = Except.ok records ∧
      (fetchDataAndSend (mkResp [sampleEntry]) "mqtt://x" sampleNow).Pairwise stepOrder ∧
      (fetchDataAndSend (mkResp [sampleEntry]) "mqtt://x" sampleNow).filter isPersistEvent =
        sendToMongoDB sampleNow records) :=
  ⟨by decide, c9_fanout_sequential [sampleEntry] "mqtt://x" sampleNow (by decide)⟩

end IndoorTracking
